import Mathlib

/-!
Verification development for the Helios solar-system scene engine.

The development shallowly embeds the per-frame orbital integrator, the
pointer-picking resolution, the screen-space label projector, the
GSAP-style tween registry driven by the selection effect, the React-style
selection wiring of the App component, and the comet spawner / integrator.

Sources embedded (two component variants exist in the repository):
* `src/unnamed/part_000` — the `PLANETS` catalog followed by the richer
  SolarSystem component (labels, comet, per-frame hover raycasting);
* `src/components/SolarSystem.tsx` — the component variant imported by
  `src/App.tsx` (its selection effect calls `gsap.killTweensOf`);
* `src/App.tsx` — selection state wiring.

Numeric modelling: JavaScript doubles are modelled by exact arithmetic.
All mutable state the claims touch is carried in explicit state records,
and every stochastic draw (`Math.random()`) is a parameter of the step
that consumes it.
-/

namespace Helios

set_option maxRecDepth 100000

/-- A 3-component vector with rational coordinates, standing for a
`THREE.Vector3` (JavaScript doubles modelled exactly). -/
structure Vec3Q where
  x : ℚ
  y : ℚ
  z : ℚ
deriving DecidableEq

/-- Catalog record for one body, from `PLANETS` in `src/unnamed/part_000`
(lines 3-94).  Only the fields read by the engine's math are kept:
`name`, `color`, `description`, `details` and the optional `textureUrl`
are display-only strings never used by the integrator, picker, labels,
selection effect or comet. -/
structure PlanetData where
  id : String
  radius : ℚ
  distance : ℚ
  speed : ℚ
deriving DecidableEq

/-- Catalog entry for the sun. -/
def sun : PlanetData := ⟨"sun", 5, 0, 0⟩

/-- Catalog entry for Mercury. -/
def mercury : PlanetData := ⟨"mercury", 0.8, 10, 0.02⟩

/-- Catalog entry for Venus. -/
def venus : PlanetData := ⟨"venus", 1.5, 15, 0.015⟩

/-- Catalog entry for Earth. -/
def earth : PlanetData := ⟨"earth", 1.6, 22, 0.01⟩

/-- Catalog entry for Mars. -/
def mars : PlanetData := ⟨"mars", 1.2, 30, 0.008⟩

/-- Catalog entry for Jupiter. -/
def jupiter : PlanetData := ⟨"jupiter", 3.5, 45, 0.004⟩

/-- Catalog entry for Saturn. -/
def saturn : PlanetData := ⟨"saturn", 3, 60, 0.003⟩

/-- Catalog entry for Uranus. -/
def uranus : PlanetData := ⟨"uranus", 2.2, 75, 0.002⟩

/-- Catalog entry for Neptune. -/
def neptune : PlanetData := ⟨"neptune", 2.1, 90, 0.001⟩

/-- The ordered body catalog (`PLANETS`, `src/unnamed/part_000` lines 3-94). -/
def PLANETS : List PlanetData :=
  [sun, mercury, venus, earth, mars, jupiter, saturn, uranus, neptune]

/-! ## Picking engine

Embeds the hover-raycast resolution of `src/unnamed/part_000` lines
545-559 (the identical walk also appears in the `onPointerDown` handler of
`src/components/SolarSystem.tsx` lines 345-358). -/

/-- A scene-graph object as seen by the picking walk: its `userData.id`
tag (absent on ring/planet child primitives, present on top-level body
meshes and on the Saturn group) and its `type` string (`"Scene"`,
`"Group"`, `"Mesh"`, ...). -/
structure SceneNode where
  userDataId : Option String
  nodeType : String
deriving DecidableEq

/-- One raycaster intersection record: the ray distance, the hit object,
and its ancestor chain listed nearest-parent first, ending with the scene
root. -/
structure Hit where
  distance : ℚ
  object : SceneNode
  ancestors : List SceneNode
deriving DecidableEq

/-- The `while (object.parent && object.parent.type !== 'Scene')` walk:
starting from the hit primitive, move to the parent while the parent
exists and is not the scene, stopping early as soon as the current object
carries a `userData.id` tag.  Returns the final object together with its
remaining ancestor chain. -/
def walkUp : SceneNode → List SceneNode → SceneNode × List SceneNode
  | obj, [] => (obj, [])
  | obj, parent :: rest =>
    if parent.nodeType = "Scene" then (obj, parent :: rest)
    else if obj.userDataId.isSome then (obj, parent :: rest)
    else walkUp parent rest

/-- The id read after the walk:
`object.userData.id || (object.parent && object.parent.userData.id)` —
the walked-to object's tag, falling back to its parent's tag, else no
hover. -/
def resolveHit (h : Hit) : Option String :=
  let w := walkUp h.object h.ancestors
  match w.1.userDataId with
  | some i => some i
  | none => w.2.head?.bind (fun p => p.userDataId)

/-- One comparison step of the minimal-distance selection. -/
def nearestStep (acc : Option Hit) (h : Hit) : Option Hit :=
  match acc with
  | none => some h
  | some b => if h.distance < b.distance then some h else some b

/-- Selection of `intersects[0]`: `raycaster.intersectObjects` returns
intersections sorted by ascending ray distance (three.js contract), and
the code takes index 0, i.e. an intersection of minimal distance. -/
def nearestHit (hits : List Hit) : Option Hit :=
  hits.foldl nearestStep none

/-- Full per-frame hover resolution: no intersection clears the hover,
otherwise the nearest intersection is resolved through the parent walk. -/
def intersectAndPick (hits : List Hit) : Option String :=
  match nearestHit hits with
  | none => none
  | some h => resolveHit h

/-- The scene root node (`type === 'Scene'`, no `userData.id`). -/
def sceneRoot : SceneNode := ⟨none, "Scene"⟩

/-- The Saturn composite group: `group.userData = { id: 'saturn' }`
(`src/unnamed/part_000` line 480). -/
def saturnGroupNode : SceneNode := ⟨some "saturn", "Group"⟩

/-- The ring child primitive of the Saturn group: a plain mesh whose
`userData` carries no id (`src/unnamed/part_000` lines 464-478). -/
def saturnRingNode : SceneNode := ⟨none, "Mesh"⟩

/-- An intersection landing on Saturn's ring primitive: the ancestor
chain is the Saturn group then the scene root. -/
def saturnRingHit : Hit := ⟨5, saturnRingNode, [saturnGroupNode, sceneRoot]⟩

/-- A top-level simple body mesh hit (mesh tagged with its id, parented
directly to the scene). -/
def simpleBodyHit (i : String) (d : ℚ) : Hit := ⟨d, ⟨some i, "Mesh"⟩, [sceneRoot]⟩

/-! ## Label projector

Embeds the per-frame label update of `src/unnamed/part_000` lines
561-583. -/

/-- The mutable bits of one label element: its CSS translate offsets and
its opacity. -/
structure LabelState where
  translateX : ℚ
  translateY : ℚ
  opacity : ℚ
deriving DecidableEq

/-- One frame of the label update for one body: `ndc` is the body's
position projected to normalized device coordinates, `w`/`h` the viewport
client size, `hov` the hover id just recomputed, `sel` the selected id.
When `ndc.z < 1` the anchor is moved to pixel coordinates and the label is
shown iff the body is hovered or selected; otherwise only the opacity is
forced to 0 (the transform is left untouched). -/
def labelUpdate (ndc : Vec3Q) (w h : ℚ) (hov sel : Option String)
    (bodyId : String) (st : LabelState) : LabelState :=
  if ndc.z < 1 then
    { translateX := (ndc.x * (1/2) + 1/2) * w
      translateY := (-(ndc.y * (1/2)) + 1/2) * h
      opacity := if hov = some bodyId ∨ sel = some bodyId then 1 else 0 }
  else
    { st with opacity := 0 }

/-! ## Comet spawner and integrator

Embeds the comet setup of `src/unnamed/part_000` lines 354-396 and the
per-frame comet block of lines 639-668.  Buffers are flat coordinate
lists mirroring the `Float32Array`s.  The deactivation test
`comet.mesh.position.length() > 250` is carried as
`62500 < ‖p‖²` which is equivalent for the nonnegative length. -/

/-- Squared Euclidean norm of a rational vector. -/
def normSq (v : Vec3Q) : ℚ := v.x ^ 2 + v.y ^ 2 + v.z ^ 2

/-- Dot product of two rational vectors. -/
def dot (a b : Vec3Q) : ℚ := a.x * b.x + a.y * b.y + a.z * b.z

/-- Componentwise vector addition (`position.add(velocity)`). -/
def vadd (a b : Vec3Q) : Vec3Q := ⟨a.x + b.x, a.y + b.y, a.z + b.z⟩

/-- Comet state: activity flag, visibility of head mesh and tail points,
head position and velocity, `tail.geometry.attributes.position.array`
(the buffer actually rendered), and `cometRef.current.tailPositions`
(the separate `Float32Array` allocated at line 392). -/
structure CometState where
  active : Bool
  headVisible : Bool
  tailVisible : Bool
  pos : Vec3Q
  velocity : Vec3Q
  tailGeoPositions : List ℚ
  tailPositions : List ℚ
deriving DecidableEq

/-- The comet state right after scene setup (lines 354-396): inactive and
hidden, mesh at the origin, initial velocity `(0.5, 0, 0.2)`, the rendered
geometry buffer `tailPos` with every `i*3` slot set to `9999` and other
slots zero, and the spare `tailPositions` array all zero. -/
def initialComet : CometState :=
  { active := false
    headVisible := false
    tailVisible := false
    pos := ⟨0, 0, 0⟩
    velocity := ⟨0.5, 0, 0.2⟩
    tailGeoPositions := (List.range 300).map (fun i => if i % 3 = 0 then (9999 : ℚ) else 0)
    tailPositions := List.replicate 300 0 }

/-- The reset loop
`for(i=0; i<comet.tailPositions.length; i++) comet.tailPositions[i] = comet.mesh.position.toArray()[i%3]`:
every slot of the buffer is overwritten with the matching coordinate of
`p`. -/
def resetBufferTo (p : Vec3Q) (buf : List ℚ) : List ℚ :=
  (List.range buf.length).map (fun i => if i % 3 = 0 then p.x else if i % 3 = 1 then p.y else p.z)

/-- The tail shift of lines 657-660: `positions[i] = positions[i-3]` for
`i` descending to 3, then slots 0..2 receive the new head position — the
buffer drops its last three entries and the head coordinates are pushed
at the front. -/
def shiftTail (buf : List ℚ) (p : Vec3Q) : List ℚ :=
  p.x :: p.y :: p.z :: buf.take (buf.length - 3)

/-- The sampled randomness of one spawn (lines 645-650): the start
position drawn on the radius-200 cylinder-banded sphere
`(cos θ·200, 50u−25, sin θ·200)` and the velocity
`normalize(target − start) · (0.8 + 0.5v)` toward a uniformly drawn
target in the `±20` box around the origin.  The trigonometric and
square-root evaluations happen in the random draw itself, so the
consuming step receives the two sampled vectors. -/
structure SpawnSample where
  startPos : Vec3Q
  velocity : Vec3Q
deriving DecidableEq

/-- The INACTIVE → ACTIVE spawn block (lines 641-652): activate, show head
and tail, teleport the head to the sampled start, install the sampled
velocity, and reset `cometRef.current.tailPositions` — note that the
rendered buffer `tail.geometry.attributes.position.array` is not
touched. -/
def cometSpawn (smp : SpawnSample) (c : CometState) : CometState :=
  { c with
    active := true
    headVisible := true
    tailVisible := true
    pos := smp.startPos
    velocity := smp.velocity
    tailPositions := resetBufferTo smp.startPos c.tailPositions }

/-- The ACTIVE block (lines 654-667): integrate one constant-velocity
step, shift the rendered tail buffer, then deactivate and hide when the
head's distance from the origin exceeds 250. -/
def cometActiveStep (c : CometState) : CometState :=
  if c.active = true then
    let newPos := vadd c.pos c.velocity
    let c1 := { c with pos := newPos, tailGeoPositions := shiftTail c.tailGeoPositions newPos }
    if 62500 < normSq newPos then
      { c1 with active := false, headVisible := false, tailVisible := false }
    else c1
  else c

/-- One frame of the comet block (lines 639-668).  `roll` is the outcome
of `!comet.active && Math.random() < 0.002`: `some smp` when the
spawn roll succeeded (carrying the sampled start and velocity), `none`
otherwise.  A successful spawn is integrated by the ACTIVE block within
the same frame, exactly as in the source. -/
def cometFrame (roll : Option SpawnSample) (c : CometState) : CometState :=
  let c1 :=
    if c.active = false then
      match roll with
      | some smp => cometSpawn smp c
      | none => c
    else c
  cometActiveStep c1

/-! ## GSAP tween registry and the selection effect

The selection `useEffect` appears in two variants:
* `src/components/SolarSystem.tsx` lines 403-484 — calls
  `gsap.killTweensOf` on each body's scale and orbit material before
  installing the reset tweens;
* `src/unnamed/part_000` lines 689-751 — installs the reset tweens
  without killing anything, and additionally handles the
  `emissiveIntensity` of non-sun materials.

A GSAP animation is modelled as a registry entry recording its target,
terminal value, duration, ease, and yoyo/repeat configuration.
`gsap.killTweensOf t` removes every entry targeting `t`; `gsap.to` /
`gsap.fromTo` append an entry.  Synchronous `material.color.setHex`
writes are logged separately.  The `onComplete`-chained settle tween of
the orbit pulse starts only after the pulse finishes and is not part of
the registry an effect run leaves behind. -/

/-- A tween target: a body's scale vector, a body material's emissive
intensity, a body orbit line's material, the camera position, or the
OrbitControls target. -/
inductive TargetId where
  | scaleOf (id : String)
  | emissiveOf (id : String)
  | orbitMatOf (id : String)
  | camPos
  | controlsTarget
deriving DecidableEq

/-- Terminal value of a tween: a scalar property or a vector property. -/
inductive TweenEnd where
  | scal (q : ℚ)
  | vec (v : Vec3Q)
deriving DecidableEq

/-- One registered GSAP animation. -/
structure Tween where
  target : TargetId
  tEnd : TweenEnd
  duration : ℚ
  ease : String
  yoyo : Bool
  repeats : ℕ
deriving DecidableEq

/-- `gsap.killTweensOf target`: drop every registered animation on that
target. -/
def killTweensOf (t : TargetId) (reg : List Tween) : List Tween :=
  reg.filter (fun tw => decide (tw.target ≠ t))

/-- What one selection-effect run leaves behind: the tween registry and
the log of synchronous orbit-material color writes (id, hex). -/
structure EffectOut where
  registry : List Tween
  colorWrites : List (String × ℕ)
deriving DecidableEq

/-- The reset tween `gsap.to(p.mesh.scale, {x:1,y:1,z:1,duration:0.5})`. -/
def scaleResetTween (i : String) : Tween :=
  ⟨.scaleOf i, .vec ⟨1, 1, 1⟩, 0.5, "default", false, 0⟩

/-- The reset tween `gsap.to(mat, {opacity:0.15, duration:0.5})` on an
orbit line material. -/
def orbitResetTween (i : String) : Tween :=
  ⟨.orbitMatOf i, .scal 0.15, 0.5, "default", false, 0⟩

/-- The reset tween `gsap.to(material, {emissiveIntensity:0, duration:0.5})`
(part_000 variant only). -/
def emissiveResetTween (i : String) : Tween :=
  ⟨.emissiveOf i, .scal 0, 0.5, "default", false, 0⟩

/-- Reset pass of the `src/components/SolarSystem.tsx` effect (lines
407-421) for one body: kill the animations on its scale and (when an
orbit line exists, i.e. `distance > 0`) on its orbit material, then tween
the scale back to 1 and the orbit opacity back to 0.15, and write the
orbit color back to `0xffffff`. -/
def resetPlanetTsx (acc : EffectOut) (p : PlanetData) : EffectOut :=
  let r1 := killTweensOf (.scaleOf p.id) acc.registry
  let r2 := if 0 < p.distance then killTweensOf (.orbitMatOf p.id) r1 else r1
  let r3 := r2 ++ [scaleResetTween p.id]
  let r4 := if 0 < p.distance then r3 ++ [orbitResetTween p.id] else r3
  { registry := r4
    colorWrites := acc.colorWrites ++ (if 0 < p.distance then [(p.id, 0xffffff)] else []) }

/-- Reset pass of the `src/unnamed/part_000` effect (lines 692-707) for
one body: no kill; tween the scale to 1; tween `emissiveIntensity` to 0
for every body with a `MeshStandardMaterial` (every body except the sun,
whose material is `MeshBasicMaterial`); tween the orbit opacity to 0.15
and write the orbit color back to `0xffffff`. -/
def resetPlanetPart000 (acc : EffectOut) (p : PlanetData) : EffectOut :=
  let r1 := acc.registry ++ [scaleResetTween p.id]
  let r2 := if p.id ≠ "sun" then r1 ++ [emissiveResetTween p.id] else r1
  let r3 := if 0 < p.distance then r2 ++ [orbitResetTween p.id] else r2
  { registry := r3
    colorWrites := acc.colorWrites ++ (if 0 < p.distance then [(p.id, 0xffffff)] else []) }

/-- The camera tweens of the focus transition (identical in both
variants): `gsap.to(controls.target, {x,y,z, duration:1.5, ease:"power2.inOut"})`
followed by
`gsap.to(camera.position, {x+offset, y+offset*0.5, z+offset, duration:1.5, ease:"power2.inOut"})`
with `offset = max(radius * 4, 10)`. -/
def cameraTweens (radius : ℚ) (pos : Vec3Q) : List Tween :=
  [⟨.controlsTarget, .vec pos, 1.5, "power2.inOut", false, 0⟩,
   ⟨.camPos,
    .vec ⟨pos.x + max (radius * 4) 10,
          pos.y + max (radius * 4) 10 * 0.5,
          pos.z + max (radius * 4) 10⟩, 1.5, "power2.inOut", false, 0⟩]

/-- The selection effect of `src/components/SolarSystem.tsx` (lines
403-484).  `posOf` reads a body's current `mesh.position` at effect time;
`sel` is the `selectedPlanetId` prop; `reg` the registry of animations
still in flight when the effect runs.  After the reset pass, a selected
body gets the camera tweens, the yoyo scale pulse to 1.3, and (when an
orbit line exists) the orbit highlight color `0x60a5fa` plus the opacity
pulse to 0.8. -/
def selectionEffectTsx (planets : List PlanetData) (posOf : String → Vec3Q)
    (sel : Option String) (reg : List Tween) : EffectOut :=
  let base := planets.foldl resetPlanetTsx ⟨reg, []⟩
  match sel with
  | none => base
  | some i =>
    match planets.find? (fun p => p.id == i) with
    | none => base
    | some p =>
      { registry := base.registry ++ cameraTweens p.radius (posOf p.id) ++
          [⟨.scaleOf p.id, .vec ⟨1.3, 1.3, 1.3⟩, 0.6, "sine.inOut", true, 3⟩] ++
          (if 0 < p.distance
           then [⟨.orbitMatOf p.id, .scal 0.8, 0.6, "sine.inOut", true, 3⟩] else [])
        colorWrites := base.colorWrites ++
          (if 0 < p.distance then [(p.id, 0x60a5fa)] else []) }

/-- The selection effect of `src/unnamed/part_000` (lines 689-751): the
kill-free reset pass, then for a selected body the camera tweens, the
yoyo scale pulse to 1.2, the `emissiveIntensity` tween to 0.5 for non-sun
bodies, and the orbit highlight color and opacity pulse. -/
def selectionEffectPart000 (planets : List PlanetData) (posOf : String → Vec3Q)
    (sel : Option String) (reg : List Tween) : EffectOut :=
  let base := planets.foldl resetPlanetPart000 ⟨reg, []⟩
  match sel with
  | none => base
  | some i =>
    match planets.find? (fun p => p.id == i) with
    | none => base
    | some p =>
      { registry := base.registry ++ cameraTweens p.radius (posOf p.id) ++
          [⟨.scaleOf p.id, .vec ⟨1.2, 1.2, 1.2⟩, 0.6, "sine.inOut", true, 3⟩] ++
          (if p.id ≠ "sun"
           then [⟨.emissiveOf p.id, .scal 0.5, 0.8, "power2.out", false, 0⟩] else []) ++
          (if 0 < p.distance
           then [⟨.orbitMatOf p.id, .scal 0.8, 0.6, "sine.inOut", true, 3⟩] else [])
        colorWrites := base.colorWrites ++
          (if 0 < p.distance then [(p.id, 0x60a5fa)] else []) }

/-- Whether a tween target is a visual-emphasis target of one of the
given bodies: a catalog body's scale, or the orbit material of a catalog
body that has an orbit line (`distance > 0`). -/
def isEmphTarget (planets : List PlanetData) (t : TargetId) : Bool :=
  planets.any (fun p =>
    decide (t = TargetId.scaleOf p.id) ||
    (decide (0 < p.distance) && decide (t = TargetId.orbitMatOf p.id)))

/-! ## App selection wiring

`src/App.tsx` lines 11-14 latch the clicked body into React state; the
component's selection `useEffect` has the dependency array
`[selectedPlanetId]`, so React re-runs the effect body only when the id
value differs from the value at the previous run. -/

/-- Application state relevant to selection: the latched selected id, the
dependency value at the last selection-effect run, and the animation
registry. -/
structure AppState where
  selectedId : Option String
  lastDeps : Option String
  registry : List Tween
deriving DecidableEq

/-- A click resolving to body `i`: `handlePlanetSelect` stores the body,
making the `selectedPlanetId` prop `some i`; the selection effect
(part_000 variant) then runs iff that value differs from the dependency
value of the previous run. -/
def handlePlanetSelect (posOf : String → Vec3Q) (i : String) (s : AppState) : AppState :=
  if some i = s.lastDeps then
    { s with selectedId := some i }
  else
    { selectedId := some i
      lastDeps := some i
      registry := (selectionEffectPart000 PLANETS posOf (some i) s.registry).registry }

/-! ## Orbital integrator

Embeds the per-frame planet update of `src/unnamed/part_000` lines
586-596 (identical in `src/components/SolarSystem.tsx` lines 368-377):
for bodies with `distance > 0` the phase angle advances by
`speed * 0.5` and the x/z position is recomputed from it; `position.y` is
never written; every body's `rotation.y` advances by 0.005.  Phase angles
and rotations are exact rationals; positions live in `ℝ` because they
carry `Math.cos`/`Math.sin` values. -/

/-- Mutable per-body scene state: orbital phase angle (`planet.angle`),
mesh position, and self-rotation (`mesh.rotation.y`). -/
structure BodyState where
  angle : ℚ
  posX : ℝ
  posY : ℝ
  posZ : ℝ
  rotY : ℚ

/-- Body state at scene construction: a mesh is created at the origin
with the random initial phase `a0` and no accumulated rotation. -/
noncomputable def initialBody (a0 : ℚ) : BodyState := ⟨a0, 0, 0, 0, 0⟩

/-- One frame of the integrator for one body. -/
noncomputable def integrateBody (d : PlanetData) (s : BodyState) : BodyState :=
  if 0 < d.distance then
    { angle := s.angle + d.speed * 0.5
      posX := Real.cos (((s.angle + d.speed * 0.5 : ℚ) : ℝ)) * (d.distance : ℝ)
      posY := s.posY
      posZ := Real.sin (((s.angle + d.speed * 0.5 : ℚ) : ℝ)) * (d.distance : ℝ)
      rotY := s.rotY + 0.005 }
  else
    { s with rotY := s.rotY + 0.005 }

/-- `n` frames of the integrator for one body. -/
noncomputable def iterateBody (d : PlanetData) : ℕ → BodyState → BodyState
  | 0, s => s
  | n + 1, s => iterateBody d n (integrateBody d s)

/-! ## Camera focus targets over the live positions

The camera part of the selection effect (lines 711-724 of
`src/unnamed/part_000`, lines 425-450 of `src/components/SolarSystem.tsx`)
destructures `const {x, y, z} = targetPlanet.mesh.position` once when the
effect runs and hands gsap constant terminal values; nothing re-reads the
body's position while the tween plays. -/

/-- The constant terminal values captured by the focus transition from
the selected body's state at effect time. -/
structure FocusTargets where
  lookX : ℝ
  lookY : ℝ
  lookZ : ℝ
  camX : ℝ
  camY : ℝ
  camZ : ℝ
  duration : ℚ
  ease : String

/-- Compute the focus transition targets from the body's current state:
`offset = max(radius * 4, 10)`, look-at = the body position, camera
position = body position + `(offset, offset * 0.5, offset)`, animated
over 1.5 s with the `power2.inOut` ease. -/
noncomputable def cameraFocusTargets (radius : ℚ) (s : BodyState) : FocusTargets :=
  { lookX := s.posX
    lookY := s.posY
    lookZ := s.posZ
    camX := s.posX + max ((radius : ℝ) * 4) 10
    camY := s.posY + max ((radius : ℝ) * 4) 10 * 0.5
    camZ := s.posZ + max ((radius : ℝ) * 4) 10
    duration := 1.5
    ease := "power2.inOut" }

/-! ## Concrete states used by witnesses and counterexamples -/

/-- A spawn sample drawn on the radius-200 sphere at angle 0 and height
draw 0.5, aimed at the origin target with speed draw 0: start
`(200, 0, 0)`, velocity `(-0.8, 0, 0)`. -/
def smp0 : SpawnSample := ⟨⟨200, 0, 0⟩, ⟨-0.8, 0, 0⟩⟩

/-- A comet cruising outward at `(200,0,0)` with velocity `(1,0,0)`. -/
def cometOutward : CometState := ⟨true, true, true, ⟨200, 0, 0⟩, ⟨1, 0, 0⟩, [], []⟩

/-- A comet about to cross the deactivation bound. -/
def cometAtBound : CometState := ⟨true, true, true, ⟨250, 0, 0⟩, ⟨1, 0, 0⟩, [], []⟩

/-- An inactive comet. -/
def cometIdle : CometState := ⟨false, false, false, ⟨0, 0, 0⟩, ⟨1, 0, 0⟩, [], []⟩

/-- A concrete position read for effect runs in witnesses and
counterexamples. -/
def posOf0 : String → Vec3Q := fun _ => ⟨0, 0, 0⟩

/-- An in-flight emphasis pulse on Earth's scale, as installed by a
previous selection in the `part_000` variant. -/
def stalePulse : Tween :=
  ⟨TargetId.scaleOf "earth", TweenEnd.vec ⟨1.2, 1.2, 1.2⟩, 0.6, "sine.inOut", true, 3⟩

/-- The app state after a completed selection of Earth: the id is
latched, the effect has run for it, no animation is still in flight. -/
def appStale : AppState := ⟨some "earth", some "earth", []⟩

/-- A snapshot of the Earth body sitting at phase angle 0 on its orbit:
position `(22, 0, 0)`. -/
noncomputable def earthSnapshot : BodyState := ⟨0, 22, 0, 0, 0⟩

/-! ## Lemmas about the orbital integrator -/

/-- One integrator frame with `distance > 0` advances the phase angle by
`speed * 0.5`. -/
theorem integrateBody_angle (d : PlanetData) (s : BodyState) (hd : 0 < d.distance) :
    (integrateBody d s).angle = s.angle + d.speed * 0.5 := by
  simp [integrateBody, hd]

/-- The integrator never writes `position.y`. -/
theorem integrateBody_posY (d : PlanetData) (s : BodyState) :
    (integrateBody d s).posY = s.posY := by
  unfold integrateBody
  split <;> rfl

/-- Phase angle after `n` frames with `distance > 0`. -/
theorem iterateBody_angle (d : PlanetData) (hd : 0 < d.distance) :
    ∀ (n : ℕ) (s : BodyState),
      (iterateBody d n s).angle = s.angle + n * (d.speed * 0.5) := by
  intro n
  induction n with
  | zero => intro s; simp [iterateBody]
  | succ m ih =>
    intro s
    rw [iterateBody, ih, integrateBody_angle d s hd]
    push_cast
    ring

/-- `position.y` is preserved by any number of frames. -/
theorem iterateBody_posY (d : PlanetData) :
    ∀ (n : ℕ) (s : BodyState), (iterateBody d n s).posY = s.posY := by
  intro n
  induction n with
  | zero => intro s; rfl
  | succ m ih => intro s; rw [iterateBody, ih, integrateBody_posY]

/-- After at least one frame with `distance > 0`, the x/z position
coordinates are the circle point of the current phase angle. -/
theorem iterateBody_pos (d : PlanetData) (hd : 0 < d.distance) :
    ∀ (n : ℕ) (s : BodyState),
      (iterateBody d (n + 1) s).posX =
        Real.cos (((iterateBody d (n + 1) s).angle : ℝ)) * (d.distance : ℝ) ∧
      (iterateBody d (n + 1) s).posZ =
        Real.sin (((iterateBody d (n + 1) s).angle : ℝ)) * (d.distance : ℝ) := by
  intro n
  induction n with
  | zero =>
    intro s
    have h1 : iterateBody d (0 + 1) s = integrateBody d s := rfl
    rw [h1]
    constructor <;> simp [integrateBody, hd]
  | succ m ih =>
    intro s
    rw [show m + 1 + 1 = (m + 1) + 1 from rfl, iterateBody]
    exact ih (integrateBody d s)

/-- Frames with `distance = 0` never write the position or the phase
angle; the self-rotation accrues `0.005` per frame. -/
theorem iterateBody_star (d : PlanetData) (hd : d.distance = 0) :
    ∀ (n : ℕ) (s : BodyState),
      (iterateBody d n s).posX = s.posX ∧
      (iterateBody d n s).posY = s.posY ∧
      (iterateBody d n s).posZ = s.posZ ∧
      (iterateBody d n s).angle = s.angle ∧
      (iterateBody d n s).rotY = s.rotY + n * 0.005 := by
  have hlt : ¬ 0 < d.distance := by rw [hd]; exact lt_irrefl 0
  intro n
  induction n with
  | zero =>
    intro s
    refine ⟨rfl, rfl, rfl, rfl, ?_⟩
    show s.rotY = s.rotY + ((0 : ℕ) : ℚ) * 0.005
    push_cast
    ring
  | succ m ih =>
    intro s
    have hstep : integrateBody d s = { s with rotY := s.rotY + 0.005 } := by
      simp [integrateBody, hlt]
    rw [iterateBody, hstep]
    obtain ⟨h1, h2, h3, h4, h5⟩ := ih { s with rotY := s.rotY + 0.005 }
    refine ⟨h1, h2, h3, h4, ?_⟩
    rw [h5]
    show s.rotY + 0.005 + (m : ℚ) * 0.005 = s.rotY + ((m + 1 : ℕ) : ℚ) * 0.005
    push_cast
    ring

/-! ## Claim theorems -/

/-- C1: for a body with `orbitalDistance > 0` each frame advances the
phase angle by `angularSpeed * 0.5` and writes the position
`(d·cos φ, unchanged y, d·sin φ)`; starting from scene construction at
initial angle `a0`, the Earth body (`distance = 22`, `speed = 0.01`)
after 100 frames has phase `a0 + 0.5` and position
`(22·cos(a0+0.5), 0, 22·sin(a0+0.5))`. -/
theorem c1_orbital_integrator (d : PlanetData) (s : BodyState) (a0 : ℚ)
    (hd : 0 < d.distance) :
    ((integrateBody d s).angle = s.angle + d.speed * 0.5 ∧
     (integrateBody d s).posX =
       (d.distance : ℝ) * Real.cos (((s.angle + d.speed * 0.5 : ℚ) : ℝ)) ∧
     (integrateBody d s).posY = s.posY ∧
     (integrateBody d s).posZ =
       (d.distance : ℝ) * Real.sin (((s.angle + d.speed * 0.5 : ℚ) : ℝ))) ∧
    ((iterateBody earth 100 (initialBody a0)).angle = a0 + 0.5 ∧
     (iterateBody earth 100 (initialBody a0)).posX =
       22 * Real.cos ((a0 : ℝ) + 0.5) ∧
     (iterateBody earth 100 (initialBody a0)).posY = 0 ∧
     (iterateBody earth 100 (initialBody a0)).posZ =
       22 * Real.sin ((a0 : ℝ) + 0.5)) := by
  have hde : (0 : ℚ) < earth.distance := by norm_num [earth]
  have hang : (iterateBody earth 100 (initialBody a0)).angle = a0 + 0.5 := by
    rw [iterateBody_angle earth hde 100 (initialBody a0)]
    norm_num [initialBody, earth]
  have hpos := iterateBody_pos earth hde 99 (initialBody a0)
  have hcast : (((iterateBody earth 100 (initialBody a0)).angle : ℚ) : ℝ) =
      (a0 : ℝ) + 0.5 := by
    rw [hang]; push_cast; norm_num
  refine ⟨⟨integrateBody_angle d s hd, ?_, integrateBody_posY d s, ?_⟩,
    hang, ?_, ?_, ?_⟩
  · simp [integrateBody, hd, mul_comm]
  · simp [integrateBody, hd, mul_comm]
  · have := hpos.1
    rw [show (99 : ℕ) + 1 = 100 from rfl] at this
    rw [this, hcast, mul_comm]
    norm_num [earth]
  · rw [iterateBody_posY]; rfl
  · have := hpos.2
    rw [show (99 : ℕ) + 1 = 100 from rfl] at this
    rw [this, hcast, mul_comm]
    norm_num [earth]

/-- Witness for C1 at the Earth catalog entry with initial angle 0. -/
theorem c1_orbital_integrator_witness :
    ((integrateBody earth (initialBody 0)).angle = 0 + earth.speed * 0.5 ∧
     (integrateBody earth (initialBody 0)).posX =
       (earth.distance : ℝ) * Real.cos (((0 + earth.speed * 0.5 : ℚ) : ℝ)) ∧
     (integrateBody earth (initialBody 0)).posY = 0 ∧
     (integrateBody earth (initialBody 0)).posZ =
       (earth.distance : ℝ) * Real.sin (((0 + earth.speed * 0.5 : ℚ) : ℝ))) ∧
    ((iterateBody earth 100 (initialBody 0)).angle = 0 + 0.5 ∧
     (iterateBody earth 100 (initialBody 0)).posX =
       22 * Real.cos (((0 : ℚ) : ℝ) + 0.5) ∧
     (iterateBody earth 100 (initialBody 0)).posY = 0 ∧
     (iterateBody earth 100 (initialBody 0)).posZ =
       22 * Real.sin (((0 : ℚ) : ℝ) + 0.5)) := by
  have h := c1_orbital_integrator earth (initialBody 0) 0 (by norm_num [earth])
  exact ⟨⟨h.1.1, h.1.2.1, h.1.2.2.1, h.1.2.2.2⟩, h.2⟩

/-- C8: a body with `orbitalDistance = 0` (the central star) is never
translated by the integrator — starting from construction at the origin
its position stays `(0,0,0)` for all frames, its phase angle never
changes, and only the self-rotation accrues. -/
theorem c8_star_fixed (d : PlanetData) (s : BodyState) (n : ℕ) (a0 : ℚ)
    (hd : d.distance = 0) :
    ((iterateBody d n s).posX = s.posX ∧
     (iterateBody d n s).posY = s.posY ∧
     (iterateBody d n s).posZ = s.posZ ∧
     (iterateBody d n s).angle = s.angle) ∧
    ((iterateBody d n (initialBody a0)).posX = 0 ∧
     (iterateBody d n (initialBody a0)).posY = 0 ∧
     (iterateBody d n (initialBody a0)).posZ = 0 ∧
     (iterateBody d n (initialBody a0)).rotY = n * 0.005) := by
  obtain ⟨h1, h2, h3, h4, _⟩ := iterateBody_star d hd n s
  obtain ⟨g1, g2, g3, _, g5⟩ := iterateBody_star d hd n (initialBody a0)
  refine ⟨⟨h1, h2, h3, h4⟩, ?_, ?_, ?_, ?_⟩
  · rw [g1]; rfl
  · rw [g2]; rfl
  · rw [g3]; rfl
  · rw [g5]; norm_num [initialBody]

/-- Witness for C8 at the sun catalog entry. -/
theorem c8_star_fixed_witness :
    ((iterateBody sun 7 (initialBody 1)).posX = (initialBody 1).posX ∧
     (iterateBody sun 7 (initialBody 1)).posY = (initialBody 1).posY ∧
     (iterateBody sun 7 (initialBody 1)).posZ = (initialBody 1).posZ ∧
     (iterateBody sun 7 (initialBody 1)).angle = (initialBody 1).angle) ∧
    ((iterateBody sun 7 (initialBody 1)).posX = 0 ∧
     (iterateBody sun 7 (initialBody 1)).posY = 0 ∧
     (iterateBody sun 7 (initialBody 1)).posZ = 0 ∧
     (iterateBody sun 7 (initialBody 1)).rotY = 7 * 0.005) :=
  c8_star_fixed sun (initialBody 1) 7 1 (by norm_num [sun])

/-- C9: the label update shows a label only when the projected position
has `ndc.z < 1` (in front of the viewer); an eligible label is anchored
at `((ndc.x·0.5+0.5)·w, (−(ndc.y·0.5)+0.5)·h)` and its opacity is 1
exactly when the body is hovered or selected; an ineligible label has
opacity 0 regardless of hover/selection. -/
theorem c9_label_projection (ndc : Vec3Q) (w h : ℚ) (hov sel : Option String)
    (bodyId : String) (st : LabelState) :
    (ndc.z < 1 →
      (labelUpdate ndc w h hov sel bodyId st).translateX = (ndc.x * 0.5 + 0.5) * w ∧
      (labelUpdate ndc w h hov sel bodyId st).translateY = (-(ndc.y * 0.5) + 0.5) * h ∧
      ((labelUpdate ndc w h hov sel bodyId st).opacity = 1 ↔
        (hov = some bodyId ∨ sel = some bodyId))) ∧
    (¬ ndc.z < 1 →
      (labelUpdate ndc w h hov sel bodyId st).opacity = 0) := by
  constructor
  · intro hz
    refine ⟨?_, ?_, ?_⟩
    · simp [labelUpdate, hz]; norm_num
    · simp [labelUpdate, hz]; norm_num
    · by_cases hact : hov = some bodyId ∨ sel = some bodyId
      · simp [labelUpdate, hz, hact]
      · simp [labelUpdate, hz, hact]
  · intro hz
    simp [labelUpdate, hz]

/-- Witness for C9: an eligible hovered label and an ineligible selected
label. -/
theorem c9_label_projection_witness :
    ((labelUpdate ⟨0, 0, 0⟩ 800 600 (some "earth") none "earth" ⟨0, 0, 0⟩).translateX =
       ((0 : ℚ) * 0.5 + 0.5) * 800 ∧
     (labelUpdate ⟨0, 0, 0⟩ 800 600 (some "earth") none "earth" ⟨0, 0, 0⟩).translateY =
       (-((0 : ℚ) * 0.5) + 0.5) * 600 ∧
     ((labelUpdate ⟨0, 0, 0⟩ 800 600 (some "earth") none "earth" ⟨0, 0, 0⟩).opacity = 1 ↔
       (some "earth" = some "earth" ∨ (none : Option String) = some "earth"))) ∧
    (labelUpdate ⟨0, 0, 2⟩ 800 600 none (some "earth") "earth" ⟨0, 0, 0⟩).opacity = 0 := by
  constructor
  · exact (c9_label_projection ⟨0, 0, 0⟩ 800 600 (some "earth") none "earth"
      ⟨0, 0, 0⟩).1 (by norm_num)
  · exact (c9_label_projection ⟨0, 0, 2⟩ 800 600 none (some "earth") "earth"
      ⟨0, 0, 0⟩).2 (by norm_num)

/-! ## Lemmas about the picking engine -/

/-- Folding the minimal-distance step from a seed returns the seed or a
list element, no farther than the seed and no farther than any list
element. -/
theorem nearestStep_foldl (hits : List Hit) :
    ∀ (b h : Hit), hits.foldl nearestStep (some b) = some h →
      (h = b ∨ h ∈ hits) ∧ h.distance ≤ b.distance ∧
        ∀ h2 ∈ hits, h.distance ≤ h2.distance := by
  induction hits with
  | nil =>
    intro b h hfold
    simp only [List.foldl_nil, Option.some.injEq] at hfold
    subst hfold
    exact ⟨Or.inl rfl, le_refl _, by simp⟩
  | cons x xs ih =>
    intro b h hfold
    rw [List.foldl_cons] at hfold
    by_cases hlt : x.distance < b.distance
    · have hstep : nearestStep (some b) x = some x := by simp [nearestStep, hlt]
      rw [hstep] at hfold
      obtain ⟨hmem, hle, hall⟩ := ih x h hfold
      refine ⟨Or.inr ?_, le_trans hle (le_of_lt hlt), ?_⟩
      · rcases hmem with rfl | hx
        · exact List.mem_cons_self _ _
        · exact List.mem_cons_of_mem _ hx
      · intro h2 hh2
        rcases List.mem_cons.mp hh2 with rfl | hh2
        · exact hle
        · exact hall h2 hh2
    · have hstep : nearestStep (some b) x = some b := by simp [nearestStep, hlt]
      rw [hstep] at hfold
      obtain ⟨hmem, hle, hall⟩ := ih b h hfold
      refine ⟨?_, hle, ?_⟩
      · rcases hmem with rfl | hx
        · exact Or.inl rfl
        · exact Or.inr (List.mem_cons_of_mem _ hx)
      · intro h2 hh2
        rcases List.mem_cons.mp hh2 with rfl | hh2
        · exact le_trans hle (not_lt.mp hlt)
        · exact hall h2 hh2

/-- Folding the minimal-distance step from a `some` seed never yields
`none`. -/
theorem nearestStep_foldl_isSome (hits : List Hit) :
    ∀ b : Hit, ∃ h, hits.foldl nearestStep (some b) = some h := by
  induction hits with
  | nil => intro b; exact ⟨b, rfl⟩
  | cons x xs ih =>
    intro b
    rw [List.foldl_cons]
    by_cases hlt : x.distance < b.distance
    · have hstep : nearestStep (some b) x = some x := by simp [nearestStep, hlt]
      rw [hstep]; exact ih x
    · have hstep : nearestStep (some b) x = some b := by simp [nearestStep, hlt]
      rw [hstep]; exact ih b

/-- `nearestHit` returns an element of minimal ray distance. -/
theorem nearestHit_spec (hits : List Hit) (h : Hit)
    (hfold : nearestHit hits = some h) :
    h ∈ hits ∧ ∀ h2 ∈ hits, h.distance ≤ h2.distance := by
  cases hits with
  | nil => simp [nearestHit] at hfold
  | cons x xs =>
    have hx : nearestHit (x :: xs) = xs.foldl nearestStep (some x) := rfl
    rw [hx] at hfold
    obtain ⟨hmem, hle, hall⟩ := nearestStep_foldl xs x h hfold
    refine ⟨?_, ?_⟩
    · rcases hmem with rfl | hmem
      · exact List.mem_cons_self _ _
      · exact List.mem_cons_of_mem _ hmem
    · intro h2 hh2
      rcases List.mem_cons.mp hh2 with rfl | hh2
      · exact hle
      · exact hall h2 hh2

/-- C2: with a unique strictly nearest intersection `h`, the hover
resolution resolves `h` through the parent walk; a hit landing on the
ring primitive of the Saturn composite group resolves to `"saturn"`
(neither `none` nor a ring-specific id); a hit on a tagged top-level body
mesh resolves to that body's id; and an empty intersection list clears
the hover to `none`. -/
theorem c2_picking (hits : List Hit) (h : Hit) (i : String) (dq : ℚ)
    (hmem : h ∈ hits) (hmin : ∀ h2 ∈ hits, h2 ≠ h → h.distance < h2.distance) :
    intersectAndPick hits = resolveHit h ∧
    resolveHit saturnRingHit = some "saturn" ∧
    resolveHit (simpleBodyHit i dq) = some i ∧
    intersectAndPick [] = none := by
  refine ⟨?_, by decide, rfl, rfl⟩
  cases hits with
  | nil => cases hmem
  | cons x xs =>
    obtain ⟨h0, hh0⟩ := nearestStep_foldl_isSome xs x
    have hfold : nearestHit (x :: xs) = some h0 := hh0
    obtain ⟨hmem0, hall0⟩ := nearestHit_spec (x :: xs) h0 hfold
    have heq : h0 = h := by
      by_contra hne
      exact absurd (hall0 h hmem) (not_le.mpr (hmin h0 hmem0 hne))
    rw [intersectAndPick, hfold, heq]

/-- Witness for C2: two intersections, the ring hit of Saturn strictly
nearest. -/
theorem c2_picking_witness :
    intersectAndPick [saturnRingHit, simpleBodyHit "jupiter" 9] =
      resolveHit saturnRingHit ∧
    resolveHit saturnRingHit = some "saturn" ∧
    resolveHit (simpleBodyHit "earth" 3) = some "earth" ∧
    intersectAndPick [] = none :=
  c2_picking [saturnRingHit, simpleBodyHit "jupiter" 9] saturnRingHit "earth" 3
    (by decide) (by decide)

/-! ## Lemmas about the comet -/

/-- A nonzero rational vector has positive squared norm. -/
theorem normSq_pos (v : Vec3Q) (hv : v ≠ ⟨0, 0, 0⟩) : 0 < normSq v := by
  rcases v with ⟨x, y, z⟩
  rcases lt_or_eq_of_le (by positivity : (0 : ℚ) ≤ x ^ 2 + y ^ 2 + z ^ 2) with hlt | heq
  · exact hlt
  · exfalso
    apply hv
    have hx : x = 0 := by nlinarith [sq_nonneg x, sq_nonneg y, sq_nonneg z]
    have hy : y = 0 := by nlinarith [sq_nonneg x, sq_nonneg y, sq_nonneg z]
    have hz : z = 0 := by nlinarith [sq_nonneg x, sq_nonneg y, sq_nonneg z]
    simp [hx, hy, hz]

/-- Expansion of the squared norm after one constant-velocity step. -/
theorem normSq_vadd (p v : Vec3Q) :
    normSq (vadd p v) = normSq p + 2 * dot p v + normSq v := by
  rcases p with ⟨a, b, c⟩
  rcases v with ⟨x, y, z⟩
  simp [normSq, vadd, dot]
  ring

/-- Expansion of the outward component after one step. -/
theorem dot_vadd (p v : Vec3Q) : dot (vadd p v) v = dot p v + normSq v := by
  rcases p with ⟨a, b, c⟩
  rcases v with ⟨x, y, z⟩
  simp [normSq, vadd, dot]
  ring

/-- The frame step of an active comet moves the head by the velocity and
leaves the velocity unchanged, whatever the deactivation test decides. -/
theorem cometFrame_active (c : CometState) (hact : c.active = true) :
    (cometFrame none c).pos = vadd c.pos c.velocity ∧
    (cometFrame none c).velocity = c.velocity := by
  have hne : ¬ c.active = false := by simp [hact]
  simp only [cometFrame, cometActiveStep, hact]
  norm_num
  constructor <;> · repeat first | rfl | split

/-- C5 (code evaluated at the failing input): the spawn step never
touches the rendered trail buffer — it rewrites only the spare
`cometRef.current.tailPositions` array, which is not the buffer bound to
`tail.geometry`.  Concretely, spawning at `(200, 0, 0)` from the setup
state leaves the rendered buffer's first slot at the stale value `9999`
even though the spare array's first slot becomes `200`. -/
theorem c5_trail_reset_bug :
    (∀ (smp : SpawnSample) (c : CometState),
      (cometSpawn smp c).tailGeoPositions = c.tailGeoPositions) ∧
    (cometSpawn smp0 initialComet).tailGeoPositions.head? = some 9999 ∧
    smp0.startPos.x = 200 ∧
    ((9999 : ℚ) ≠ 200) ∧
    (cometSpawn smp0 initialComet).tailPositions.head? = some 200 := by
  refine ⟨fun smp c => rfl, ?_, rfl, by norm_num, ?_⟩
  · have hbuf : (cometSpawn smp0 initialComet).tailGeoPositions =
        (List.range 300).map (fun i => if i % 3 = 0 then (9999 : ℚ) else 0) := rfl
    rw [hbuf, show (300 : ℕ) = 299 + 1 from rfl, List.range_succ_eq_map]
    simp
  · have hbuf : (cometSpawn smp0 initialComet).tailPositions =
        (List.range ((List.replicate 300 (0 : ℚ)).length)).map
          (fun i => if i % 3 = 0 then (200 : ℚ)
            else if i % 3 = 1 then (0 : ℚ) else (0 : ℚ)) := rfl
    rw [hbuf]
    simp only [List.length_replicate]
    rw [show (300 : ℕ) = 299 + 1 from rfl, List.range_succ_eq_map]
    simp

/-- C6 counterexample: a freshly spawned comet (start `(200,0,0)` on the
radius-200 sphere, velocity `0.8 · normalize((0,0,0) − start)`) is
strictly closer to the origin after its first integration step than at
its spawn point, refuting the claim that `|position|` strictly increases
frame over frame from the spawn on. -/
theorem c6_counterexample :
    (cometFrame (some smp0) initialComet).active = true ∧
    normSq (cometFrame (some smp0) initialComet).pos < normSq smp0.startPos := by
  have hpos : (cometFrame (some smp0) initialComet).pos = ⟨199.2, 0, 0⟩ ∧
      (cometFrame (some smp0) initialComet).active = true := by
    have hfar : ¬ (62500 : ℚ) < normSq (vadd smp0.startPos smp0.velocity) := by
      norm_num [normSq, vadd, smp0]
    constructor <;>
      · simp only [cometFrame, cometSpawn, cometActiveStep, initialComet, smp0]
        norm_num [vadd, normSq]
  refine ⟨hpos.2, ?_⟩
  rw [hpos.1]
  norm_num [normSq, smp0]

/-- C6 as amended: the active comet advances by its constant velocity
each frame; once the motion is outward (`⟨p, v⟩ ≥ 0`) the squared
distance from the origin strictly increases and stays outward, so the
distance is strictly increasing from the closest approach on; when the
distance after a step exceeds 250 (`‖p+v‖² > 62500`) the comet
deactivates and hides its head and tail; and an inactive comet is left
entirely unchanged by frames without a spawn roll. -/
theorem c6_comet_amended (c : CometState) :
    (c.active = true →
      (cometFrame none c).pos = vadd c.pos c.velocity ∧
      (cometFrame none c).velocity = c.velocity) ∧
    (c.active = true → 0 ≤ dot c.pos c.velocity → c.velocity ≠ ⟨0, 0, 0⟩ →
      normSq c.pos < normSq (cometFrame none c).pos ∧
      0 < dot (cometFrame none c).pos c.velocity) ∧
    (c.active = true → 62500 < normSq (vadd c.pos c.velocity) →
      (cometFrame none c).active = false ∧
      (cometFrame none c).headVisible = false ∧
      (cometFrame none c).tailVisible = false) ∧
    (c.active = false → cometFrame none c = c) := by
  refine ⟨fun hact => cometFrame_active c hact, ?_, ?_, ?_⟩
  · intro hact hdot hvne
    obtain ⟨hpos, _⟩ := cometFrame_active c hact
    have hv := normSq_pos c.velocity hvne
    constructor
    · rw [hpos, normSq_vadd]
      linarith
    · rw [hpos, dot_vadd]
      linarith
  · intro hact hfar
    rcases c with ⟨act, hv, tv, p, v, tg, tp⟩
    simp only at hact
    subst hact
    simp [cometFrame, cometActiveStep, hfar]
  · intro hact
    rcases c with ⟨act, hv, tv, p, v, tg, tp⟩
    simp only at hact
    subst hact
    simp [cometFrame, cometActiveStep]

/-- Witness for the amended C6 at three concrete comet states. -/
theorem c6_comet_amended_witness :
    ((cometFrame none cometOutward).pos = vadd cometOutward.pos cometOutward.velocity ∧
     (cometFrame none cometOutward).velocity = cometOutward.velocity) ∧
    (normSq cometOutward.pos < normSq (cometFrame none cometOutward).pos ∧
     0 < dot (cometFrame none cometOutward).pos cometOutward.velocity) ∧
    ((cometFrame none cometAtBound).active = false ∧
     (cometFrame none cometAtBound).headVisible = false ∧
     (cometFrame none cometAtBound).tailVisible = false) ∧
    cometFrame none cometIdle = cometIdle :=
  ⟨(c6_comet_amended cometOutward).1 rfl,
   (c6_comet_amended cometOutward).2.1 rfl
     (by norm_num [dot, cometOutward])
     (by simp [cometOutward]),
   (c6_comet_amended cometAtBound).2.2.1 rfl
     (by norm_num [normSq, vadd, cometAtBound]),
   (c6_comet_amended cometIdle).2.2.2 rfl⟩

/-! ## Lemmas about the selection effects -/

/-- A tween whose target is none of the scales and none of the orbit
materials of the remaining bodies survives the kill-and-reset fold of the
`SolarSystem.tsx` variant. -/
theorem resetFoldTsx_survives (ps : List PlanetData) :
    ∀ (acc : EffectOut) (t : Tween), t ∈ acc.registry →
      (∀ q ∈ ps, t.target ≠ TargetId.scaleOf q.id ∧
        t.target ≠ TargetId.orbitMatOf q.id) →
      t ∈ (ps.foldl resetPlanetTsx acc).registry := by
  induction ps with
  | nil => intro acc t ht _; exact ht
  | cons q qs ih =>
    intro acc t ht hdiff
    rw [List.foldl_cons]
    apply ih (resetPlanetTsx acc q) t
    · obtain ⟨hs, ho⟩ := hdiff q (List.mem_cons_self q qs)
      by_cases hq : 0 < q.distance
      · have hshape : (resetPlanetTsx acc q).registry =
            (killTweensOf (TargetId.orbitMatOf q.id)
               (killTweensOf (TargetId.scaleOf q.id) acc.registry) ++
             [scaleResetTween q.id]) ++ [orbitResetTween q.id] := by
          simp [resetPlanetTsx, hq]
        rw [hshape]
        apply List.mem_append_left
        apply List.mem_append_left
        rw [killTweensOf, List.mem_filter]
        refine ⟨?_, by simp [ho]⟩
        rw [killTweensOf, List.mem_filter]
        exact ⟨ht, by simp [hs]⟩
      · have hshape : (resetPlanetTsx acc q).registry =
            killTweensOf (TargetId.scaleOf q.id) acc.registry ++
              [scaleResetTween q.id] := by
          simp [resetPlanetTsx, hq]
        rw [hshape]
        apply List.mem_append_left
        rw [killTweensOf, List.mem_filter]
        exact ⟨ht, by simp [hs]⟩
    · intro r hr
      exact hdiff r (List.mem_cons_of_mem q hr)

/-- Every entry of the fold's output registry either entered with the
accumulator and dodges the kills of every processed body, or is one of
the freshly installed reset tweens. -/
theorem resetFoldTsx_mem (ps : List PlanetData) :
    ∀ (acc : EffectOut) (t : Tween), t ∈ (ps.foldl resetPlanetTsx acc).registry →
      (t ∈ acc.registry ∧ ∀ q ∈ ps, t.target ≠ TargetId.scaleOf q.id ∧
        (0 < q.distance → t.target ≠ TargetId.orbitMatOf q.id)) ∨
      (∃ q ∈ ps, t = scaleResetTween q.id ∨
        (0 < q.distance ∧ t = orbitResetTween q.id)) := by
  induction ps with
  | nil => intro acc t ht; exact Or.inl ⟨ht, by simp⟩
  | cons q qs ih =>
    intro acc t ht
    rw [List.foldl_cons] at ht
    rcases ih (resetPlanetTsx acc q) t ht with ⟨hacc, hrest⟩ | ⟨r, hr, hcase⟩
    · have hsplit : t ∈ (resetPlanetTsx acc q).registry := hacc
      by_cases hq : 0 < q.distance
      · have hshape : (resetPlanetTsx acc q).registry =
            (killTweensOf (TargetId.orbitMatOf q.id)
               (killTweensOf (TargetId.scaleOf q.id) acc.registry) ++
             [scaleResetTween q.id]) ++ [orbitResetTween q.id] := by
          simp [resetPlanetTsx, hq]
        rw [hshape] at hsplit
        rcases List.mem_append.mp hsplit with hin | hnew
        · rcases List.mem_append.mp hin with hker | hnew2
          · rw [killTweensOf, List.mem_filter] at hker
            obtain ⟨hker2, hno⟩ := hker
            rw [killTweensOf, List.mem_filter] at hker2
            obtain ⟨hker3, hns⟩ := hker2
            refine Or.inl ⟨hker3, ?_⟩
            intro r hrmem
            rcases List.mem_cons.mp hrmem with rfl | hrmem
            · refine ⟨by simpa using hns, fun _ => by simpa using hno⟩
            · exact hrest r hrmem
          · exact Or.inr ⟨q, List.mem_cons_self q qs,
              Or.inl (List.mem_singleton.mp hnew2)⟩
        · exact Or.inr ⟨q, List.mem_cons_self q qs,
            Or.inr ⟨hq, List.mem_singleton.mp hnew⟩⟩
      · have hshape : (resetPlanetTsx acc q).registry =
            killTweensOf (TargetId.scaleOf q.id) acc.registry ++
              [scaleResetTween q.id] := by
          simp [resetPlanetTsx, hq]
        rw [hshape] at hsplit
        rcases List.mem_append.mp hsplit with hker | hnew
        · rw [killTweensOf, List.mem_filter] at hker
          obtain ⟨hker2, hns⟩ := hker
          refine Or.inl ⟨hker2, ?_⟩
          intro r hrmem
          rcases List.mem_cons.mp hrmem with rfl | hrmem
          · exact ⟨by simpa using hns, fun hcon => absurd hcon hq⟩
          · exact hrest r hrmem
        · exact Or.inr ⟨q, List.mem_cons_self q qs,
            Or.inl (List.mem_singleton.mp hnew)⟩
    · exact Or.inr ⟨r, List.mem_cons_of_mem q hr, hcase⟩

/-- The scale reset tween of every catalog body is present after the
fold, provided catalog ids are unique. -/
theorem resetFoldTsx_scale (ps : List PlanetData) (hnd : (ps.map PlanetData.id).Nodup) :
    ∀ (acc : EffectOut) (p : PlanetData), p ∈ ps →
      scaleResetTween p.id ∈ (ps.foldl resetPlanetTsx acc).registry := by
  induction ps with
  | nil => intro acc p hp; cases hp
  | cons q qs ih =>
    intro acc p hp
    rw [List.map_cons, List.nodup_cons] at hnd
    obtain ⟨hqid, hnd2⟩ := hnd
    rw [List.foldl_cons]
    rcases List.mem_cons.mp hp with rfl | hp2
    · apply resetFoldTsx_survives qs (resetPlanetTsx acc p) (scaleResetTween p.id)
      · by_cases hq : 0 < p.distance
        · have hshape : (resetPlanetTsx acc p).registry =
              (killTweensOf (TargetId.orbitMatOf p.id)
                 (killTweensOf (TargetId.scaleOf p.id) acc.registry) ++
               [scaleResetTween p.id]) ++ [orbitResetTween p.id] := by
            simp [resetPlanetTsx, hq]
          rw [hshape]
          apply List.mem_append_left
          exact List.mem_append_right _ (List.mem_singleton.mpr rfl)
        · have hshape : (resetPlanetTsx acc p).registry =
              killTweensOf (TargetId.scaleOf p.id) acc.registry ++
                [scaleResetTween p.id] := by
            simp [resetPlanetTsx, hq]
          rw [hshape]
          exact List.mem_append_right _ (List.mem_singleton.mpr rfl)
      · intro r hr
        have hne : r.id ≠ p.id := by
          intro hcon
          exact hqid (by rw [← hcon]; exact List.mem_map_of_mem PlanetData.id hr)
        constructor
        · simp [scaleResetTween]
          intro hcon
          exact hne hcon.symm
        · simp [scaleResetTween]
    · exact ih hnd2 (resetPlanetTsx acc q) p hp2

/-- The orbit-opacity reset tween of every catalog body with an orbit
line is present after the fold, provided catalog ids are unique. -/
theorem resetFoldTsx_orbit (ps : List PlanetData) (hnd : (ps.map PlanetData.id).Nodup) :
    ∀ (acc : EffectOut) (p : PlanetData), p ∈ ps → 0 < p.distance →
      orbitResetTween p.id ∈ (ps.foldl resetPlanetTsx acc).registry := by
  induction ps with
  | nil => intro acc p hp; cases hp
  | cons q qs ih =>
    intro acc p hp hdist
    rw [List.map_cons, List.nodup_cons] at hnd
    obtain ⟨hqid, hnd2⟩ := hnd
    rw [List.foldl_cons]
    rcases List.mem_cons.mp hp with rfl | hp2
    · apply resetFoldTsx_survives qs (resetPlanetTsx acc p) (orbitResetTween p.id)
      · have hshape : (resetPlanetTsx acc p).registry =
            (killTweensOf (TargetId.orbitMatOf p.id)
               (killTweensOf (TargetId.scaleOf p.id) acc.registry) ++
             [scaleResetTween p.id]) ++ [orbitResetTween p.id] := by
          simp [resetPlanetTsx, hdist]
        rw [hshape]
        exact List.mem_append_right _ (List.mem_singleton.mpr rfl)
      · intro r hr
        have hne : r.id ≠ p.id := by
          intro hcon
          exact hqid (by rw [← hcon]; exact List.mem_map_of_mem PlanetData.id hr)
        constructor
        · simp [orbitResetTween]
        · simp [orbitResetTween]
          intro hcon
          exact hne hcon.symm
    · exact ih hnd2 (resetPlanetTsx acc q) p hp2 hdist

/-- Color writes accumulate monotonically through the fold. -/
theorem resetFoldTsx_color_mono (ps : List PlanetData) :
    ∀ (acc : EffectOut) (x : String × ℕ), x ∈ acc.colorWrites →
      x ∈ (ps.foldl resetPlanetTsx acc).colorWrites := by
  induction ps with
  | nil => intro acc x hx; exact hx
  | cons q qs ih =>
    intro acc x hx
    rw [List.foldl_cons]
    apply ih
    show x ∈ acc.colorWrites ++ (if 0 < q.distance then [(q.id, 0xffffff)] else [])
    exact List.mem_append_left _ hx

/-- Every catalog body with an orbit line gets its `0xffffff` color
write during the fold. -/
theorem resetFoldTsx_color (ps : List PlanetData) :
    ∀ (acc : EffectOut) (p : PlanetData), p ∈ ps → 0 < p.distance →
      (p.id, 0xffffff) ∈ (ps.foldl resetPlanetTsx acc).colorWrites := by
  induction ps with
  | nil => intro acc p hp; cases hp
  | cons q qs ih =>
    intro acc p hp hdist
    rw [List.foldl_cons]
    rcases List.mem_cons.mp hp with rfl | hp2
    · apply resetFoldTsx_color_mono
      show (p.id, 0xffffff) ∈ acc.colorWrites ++
        (if 0 < p.distance then [(p.id, 0xffffff)] else [])
      rw [if_pos hdist]
      exact List.mem_append_right _ (List.mem_singleton.mpr rfl)
    · exact ih (resetPlanetTsx acc q) p hp2 hdist

/-- Tweens only accumulate through the kill-free reset fold of the
`part_000` variant: nothing already registered is ever removed. -/
theorem ite_append_extract {α : Type} {c : Prop} [Decidable c] (x l : List α) :
    (if c then x ++ l else x) = x ++ (if c then l else []) := by
  split <;> simp

theorem resetFoldPart000_mono (ps : List PlanetData) :
    ∀ (acc : EffectOut) (t : Tween), t ∈ acc.registry →
      t ∈ (ps.foldl resetPlanetPart000 acc).registry := by
  induction ps with
  | nil => intro acc t ht; exact ht
  | cons q qs ih =>
    intro acc t ht
    rw [List.foldl_cons]
    apply ih
    show t ∈ (resetPlanetPart000 acc q).registry
    have h1 : (resetPlanetPart000 acc q).registry =
        acc.registry ++ [scaleResetTween q.id] ++
          (if q.id ≠ "sun" then [emissiveResetTween q.id] else []) ++
          (if 0 < q.distance then [orbitResetTween q.id] else []) := by
      simp only [resetPlanetPart000, ite_append_extract]
    rw [h1]
    exact List.mem_append_left _ (List.mem_append_left _ (List.mem_append_left _ ht))

/-- C3: when the selection names a body found in the catalog, both
selection-effect variants register a look-at tween moving the controls
target to the body's current position and a camera tween moving the
camera to that position offset by `(offset, offset·0.5, offset)` with
`offset = max(radius·4, 10)`, each over the fixed 1.5 s duration with
the `power2.inOut` ease-in/ease-out curve. -/
theorem c3_camera_transition (planets : List PlanetData) (posOf : String → Vec3Q)
    (reg : List Tween) (i : String) (p : PlanetData)
    (hfind : planets.find? (fun q => q.id == i) = some p) :
    (Tween.mk TargetId.controlsTarget (TweenEnd.vec (posOf p.id)) 1.5 "power2.inOut" false 0 ∈
        (selectionEffectPart000 planets posOf (some i) reg).registry ∧
     Tween.mk TargetId.camPos
        (TweenEnd.vec ⟨(posOf p.id).x + max (p.radius * 4) 10,
                       (posOf p.id).y + max (p.radius * 4) 10 * 0.5,
                       (posOf p.id).z + max (p.radius * 4) 10⟩)
        1.5 "power2.inOut" false 0 ∈
        (selectionEffectPart000 planets posOf (some i) reg).registry) ∧
    (Tween.mk TargetId.controlsTarget (TweenEnd.vec (posOf p.id)) 1.5 "power2.inOut" false 0 ∈
        (selectionEffectTsx planets posOf (some i) reg).registry ∧
     Tween.mk TargetId.camPos
        (TweenEnd.vec ⟨(posOf p.id).x + max (p.radius * 4) 10,
                       (posOf p.id).y + max (p.radius * 4) 10 * 0.5,
                       (posOf p.id).z + max (p.radius * 4) 10⟩)
        1.5 "power2.inOut" false 0 ∈
        (selectionEffectTsx planets posOf (some i) reg).registry) := by
  constructor
  · constructor <;>
    · simp only [selectionEffectPart000, hfind]
      simp [cameraTweens]
  · constructor <;>
    · simp only [selectionEffectTsx, hfind]
      simp [cameraTweens]

/-- Witness for C3 at the Earth catalog entry. -/
theorem c3_camera_transition_witness :
    (Tween.mk TargetId.controlsTarget (TweenEnd.vec (posOf0 earth.id)) 1.5 "power2.inOut" false 0 ∈
        (selectionEffectPart000 PLANETS posOf0 (some "earth") []).registry ∧
     Tween.mk TargetId.camPos
        (TweenEnd.vec ⟨(posOf0 earth.id).x + max (earth.radius * 4) 10,
                       (posOf0 earth.id).y + max (earth.radius * 4) 10 * 0.5,
                       (posOf0 earth.id).z + max (earth.radius * 4) 10⟩)
        1.5 "power2.inOut" false 0 ∈
        (selectionEffectPart000 PLANETS posOf0 (some "earth") []).registry) ∧
    (Tween.mk TargetId.controlsTarget (TweenEnd.vec (posOf0 earth.id)) 1.5 "power2.inOut" false 0 ∈
        (selectionEffectTsx PLANETS posOf0 (some "earth") []).registry ∧
     Tween.mk TargetId.camPos
        (TweenEnd.vec ⟨(posOf0 earth.id).x + max (earth.radius * 4) 10,
                       (posOf0 earth.id).y + max (earth.radius * 4) 10 * 0.5,
                       (posOf0 earth.id).z + max (earth.radius * 4) 10⟩)
        1.5 "power2.inOut" false 0 ∈
        (selectionEffectTsx PLANETS posOf0 (some "earth") []).registry) :=
  c3_camera_transition PLANETS posOf0 [] "earth" earth rfl

/-- C4 counterexample: in the `part_000` selection effect an in-flight
emphasis pulse survives a selection change to `none` — the registry
still contains the old pulse targeting Earth's scale with terminal scale
1.2 (a non-rest value), so in-flight emphasis animations are overwritten,
not cancelled. -/
theorem c4_counterexample :
    stalePulse ∈ (selectionEffectPart000 PLANETS posOf0 none [stalePulse]).registry ∧
    isEmphTarget PLANETS stalePulse.target = true ∧
    stalePulse.tEnd ≠ TweenEnd.vec ⟨1, 1, 1⟩ := by
  refine ⟨?_, by decide, by norm_num [stalePulse]⟩
  show stalePulse ∈ (PLANETS.foldl resetPlanetPart000 ⟨[stalePulse], []⟩).registry
  exact resetFoldPart000_mono PLANETS ⟨[stalePulse], []⟩ stalePulse
    (List.mem_singleton.mpr rfl)

/-- C4 as amended: in the `src/components/SolarSystem.tsx` variant a
selection change to `none` kills the in-flight animations of every
catalog body before installing the resets — afterwards every registered
animation on a body's scale or orbit material is one of the fresh reset
tweens ending at the rest values (scale 1, opacity 0.15), every body has
its scale reset registered, and every orbiting body has its opacity
reset registered and its orbit color synchronously restored to the dim
white `0xffffff`.  The `part_000` variant installs the same resets but
does not cancel, as the counterexample shows. -/
theorem c4_reset_cancellation (reg : List Tween) (posOf : String → Vec3Q) :
    (∀ t ∈ (selectionEffectTsx PLANETS posOf none reg).registry,
        isEmphTarget PLANETS t.target = true →
        (∃ p ∈ PLANETS, t = scaleResetTween p.id ∨
          (0 < p.distance ∧ t = orbitResetTween p.id))) ∧
    (∀ p ∈ PLANETS,
        scaleResetTween p.id ∈ (selectionEffectTsx PLANETS posOf none reg).registry) ∧
    (∀ p ∈ PLANETS, 0 < p.distance →
        orbitResetTween p.id ∈ (selectionEffectTsx PLANETS posOf none reg).registry ∧
        (p.id, 0xffffff) ∈ (selectionEffectTsx PLANETS posOf none reg).colorWrites) := by
  have hnd : (PLANETS.map PlanetData.id).Nodup := by decide
  have heff : selectionEffectTsx PLANETS posOf none reg =
      PLANETS.foldl resetPlanetTsx ⟨reg, []⟩ := rfl
  rw [heff]
  refine ⟨?_, ?_, ?_⟩
  · intro t ht hemph
    rcases resetFoldTsx_mem PLANETS ⟨reg, []⟩ t ht with ⟨_, hall⟩ | hfresh
    · exfalso
      simp only [isEmphTarget, List.any_eq_true, Bool.or_eq_true, Bool.and_eq_true,
        decide_eq_true_eq] at hemph
      obtain ⟨p, hp, hcond⟩ := hemph
      rcases hcond with hsc | ⟨hdist, hor⟩
      · exact (hall p hp).1 hsc
      · exact (hall p hp).2 hdist hor
    · exact hfresh
  · intro p hp
    exact resetFoldTsx_scale PLANETS hnd ⟨reg, []⟩ p hp
  · intro p hp hd
    exact ⟨resetFoldTsx_orbit PLANETS hnd ⟨reg, []⟩ p hp hd,
      resetFoldTsx_color PLANETS ⟨reg, []⟩ p hp hd⟩

/-- Witness for the amended C4: after deselection with the stale pulse in
flight, the sun's fresh scale reset is classified as a reset, Earth's
scale and orbit resets are registered, and Earth's orbit color is
restored. -/
theorem c4_reset_cancellation_witness :
    (∃ p ∈ PLANETS, scaleResetTween "sun" = scaleResetTween p.id ∨
      (0 < p.distance ∧ scaleResetTween "sun" = orbitResetTween p.id)) ∧
    scaleResetTween "earth" ∈
      (selectionEffectTsx PLANETS posOf0 none [stalePulse]).registry ∧
    orbitResetTween "earth" ∈
      (selectionEffectTsx PLANETS posOf0 none [stalePulse]).registry ∧
    ("earth", 0xffffff) ∈
      (selectionEffectTsx PLANETS posOf0 none [stalePulse]).colorWrites := by
  have h := c4_reset_cancellation [stalePulse] posOf0
  have hsun : sun ∈ PLANETS := by simp [PLANETS]
  have hearth : earth ∈ PLANETS := by simp [PLANETS]
  have hde : (0 : ℚ) < earth.distance := by norm_num [earth]
  refine ⟨h.1 (scaleResetTween "sun") (h.2.1 sun hsun) (by decide),
    h.2.1 earth hearth, (h.2.2 earth hearth hde).1, (h.2.2 earth hearth hde).2⟩

/-- C7 counterexample: clicking the currently selected body again leaves
the application state bit-for-bit unchanged — no camera or emphasis
tween is installed — although running the selection effect would have
installed tweens; so re-selecting the same id does not restart the
transition. -/
theorem c7_counterexample :
    appStale.selectedId = some "earth" ∧
    handlePlanetSelect posOf0 "earth" appStale = appStale ∧
    (selectionEffectPart000 PLANETS posOf0 (some "earth") []).registry ≠ [] := by
  refine ⟨rfl, ?_, ?_⟩
  · simp [handlePlanetSelect, appStale]
  · have hfind : PLANETS.find? (fun q => q.id == "earth") = some earth := rfl
    have hmem : Tween.mk TargetId.controlsTarget (TweenEnd.vec (posOf0 earth.id))
        1.5 "power2.inOut" false 0 ∈
        (selectionEffectPart000 PLANETS posOf0 (some "earth") []).registry := by
      simp only [selectionEffectPart000, hfind]
      simp [cameraTweens]
    exact List.ne_nil_of_mem hmem

/-- C7 as amended: the selection effect is keyed on the id value, so a
click on the already-selected id only re-latches the id and runs no
effect, and two consecutive selections of the same id produce exactly
the state of the first — the terminal camera/emphasis state is reached
once and never accumulates. -/
theorem c7_selection_idempotent (posOf : String → Vec3Q) (i : String) (s : AppState) :
    (s.lastDeps = some i →
      handlePlanetSelect posOf i s = { s with selectedId := some i }) ∧
    handlePlanetSelect posOf i (handlePlanetSelect posOf i s) =
      handlePlanetSelect posOf i s := by
  constructor
  · intro h
    simp only [handlePlanetSelect]
    rw [if_pos h.symm]
  · by_cases hc : some i = s.lastDeps
    · have h1 : handlePlanetSelect posOf i s = { s with selectedId := some i } := by
        simp only [handlePlanetSelect]
        rw [if_pos hc]
      rw [h1]
      simp only [handlePlanetSelect]
      rw [if_pos hc]
    · have h1 : handlePlanetSelect posOf i s =
          ⟨some i, some i,
            (selectionEffectPart000 PLANETS posOf (some i) s.registry).registry⟩ := by
        simp only [handlePlanetSelect]
        rw [if_neg hc]
      rw [h1]
      simp [handlePlanetSelect]

/-- Witness for the amended C7: re-clicking the latched Earth selection
and double-clicking from a fresh state. -/
theorem c7_selection_idempotent_witness :
    handlePlanetSelect posOf0 "earth" appStale =
      { appStale with selectedId := some "earth" } ∧
    handlePlanetSelect posOf0 "earth" (handlePlanetSelect posOf0 "earth" ⟨none, none, []⟩) =
      handlePlanetSelect posOf0 "earth" ⟨none, none, []⟩ :=
  ⟨(c7_selection_idempotent posOf0 "earth" appStale).1 rfl,
   (c7_selection_idempotent posOf0 "earth" ⟨none, none, []⟩).2⟩

/-- A rational angle advance cannot be a nonzero multiple of `2π`: if
`cos δ = 1` for a positive rational `δ`, then `π` would be rational. -/
theorem rat_advance_cos_ne_one (δq : ℚ) (hpos : 0 < δq) :
    Real.cos ((δq : ℝ)) ≠ 1 := by
  intro hcos
  obtain ⟨n, hn⟩ := (Real.cos_eq_one_iff ((δq : ℝ))).mp hcos
  have hδR : (0 : ℝ) < (δq : ℝ) := by exact_mod_cast hpos
  have h2π : (0 : ℝ) < 2 * Real.pi := by positivity
  have hn0 : (0 : ℝ) < (n : ℝ) := by nlinarith
  have hnne : (n : ℝ) ≠ 0 := ne_of_gt hn0
  have hnq : ((n : ℚ) : ℝ) ≠ 0 := by push_cast; exact hnne
  have hπ : Real.pi = ((δq / (2 * (n : ℚ)) : ℚ) : ℝ) := by
    push_cast
    rw [eq_div_iff (by push_cast at hnq ⊢; simpa using mul_ne_zero two_ne_zero hnq)]
    nlinarith
  have := irrational_pi
  rw [hπ] at this
  exact Rat.not_irrational _ this

/-- C10: the focus transition captures the selected body's position once
at effect time — the terminal look-at point and camera position are the
captured coordinates — while the integrator keeps advancing the body, so
after any further number of frames `j ≥ 1` the body is no longer at the
captured look-at point (the camera does not track the moving body). -/
theorem c10_capture_no_tracking (d : PlanetData) (s : BodyState) (j : ℕ) (r : ℚ)
    (hd : 0 < d.distance) (hs : 0 < d.speed) (hj : 1 ≤ j)
    (hx : s.posX = Real.cos ((s.angle : ℝ)) * (d.distance : ℝ))
    (hz : s.posZ = Real.sin ((s.angle : ℝ)) * (d.distance : ℝ)) :
    ((cameraFocusTargets r s).lookX = s.posX ∧
     (cameraFocusTargets r s).lookY = s.posY ∧
     (cameraFocusTargets r s).lookZ = s.posZ ∧
     (cameraFocusTargets r s).camX = s.posX + max ((r : ℝ) * 4) 10 ∧
     (cameraFocusTargets r s).camY = s.posY + max ((r : ℝ) * 4) 10 * 0.5 ∧
     (cameraFocusTargets r s).camZ = s.posZ + max ((r : ℝ) * 4) 10) ∧
    ¬ ((iterateBody d j s).posX = (cameraFocusTargets r s).lookX ∧
       (iterateBody d j s).posZ = (cameraFocusTargets r s).lookZ) := by
  refine ⟨⟨rfl, rfl, rfl, rfl, rfl, rfl⟩, ?_⟩
  obtain ⟨m, rfl⟩ : ∃ m, j = m + 1 := ⟨j - 1, by omega⟩
  rintro ⟨h1, h2⟩
  have hlX : (cameraFocusTargets r s).lookX = s.posX := rfl
  have hlZ : (cameraFocusTargets r s).lookZ = s.posZ := rfl
  rw [hlX, hx] at h1
  rw [hlZ, hz] at h2
  have hpos := iterateBody_pos d hd m s
  have hang := iterateBody_angle d hd (m + 1) s
  rw [hpos.1, hang] at h1
  rw [hpos.2, hang] at h2
  set δq : ℚ := ((m + 1 : ℕ) : ℚ) * (d.speed * 0.5) with hδq
  have hcast : ((s.angle + ((m + 1 : ℕ) : ℚ) * (d.speed * 0.5) : ℚ) : ℝ) =
      (s.angle : ℝ) + (δq : ℝ) := by
    rw [hδq]; push_cast; ring
  rw [hcast] at h1 h2
  have hD : (0 : ℝ) < (d.distance : ℝ) := by exact_mod_cast hd
  have hcos : Real.cos ((s.angle : ℝ) + (δq : ℝ)) = Real.cos ((s.angle : ℝ)) :=
    mul_right_cancel₀ (ne_of_gt hD) h1
  have hsin : Real.sin ((s.angle : ℝ) + (δq : ℝ)) = Real.sin ((s.angle : ℝ)) :=
    mul_right_cancel₀ (ne_of_gt hD) h2
  have hδpos : 0 < δq := by
    rw [hδq]
    have hm : (0 : ℚ) < ((m + 1 : ℕ) : ℚ) := by positivity
    have : (0 : ℚ) < d.speed * 0.5 := by positivity
    positivity
  apply rat_advance_cos_ne_one δq hδpos
  have hsub := Real.cos_sub ((s.angle : ℝ) + (δq : ℝ)) ((s.angle : ℝ))
  rw [show (s.angle : ℝ) + (δq : ℝ) - (s.angle : ℝ) = (δq : ℝ) by ring] at hsub
  rw [hsub, hcos, hsin]
  have hpyth := Real.cos_sq_add_sin_sq ((s.angle : ℝ))
  nlinarith [hpyth]

/-- Witness for C10: selecting Earth at phase 0 and advancing one frame. -/
theorem c10_capture_no_tracking_witness :
    ((cameraFocusTargets earth.radius earthSnapshot).lookX = earthSnapshot.posX ∧
     (cameraFocusTargets earth.radius earthSnapshot).lookY = earthSnapshot.posY ∧
     (cameraFocusTargets earth.radius earthSnapshot).lookZ = earthSnapshot.posZ ∧
     (cameraFocusTargets earth.radius earthSnapshot).camX =
       earthSnapshot.posX + max ((earth.radius : ℝ) * 4) 10 ∧
     (cameraFocusTargets earth.radius earthSnapshot).camY =
       earthSnapshot.posY + max ((earth.radius : ℝ) * 4) 10 * 0.5 ∧
     (cameraFocusTargets earth.radius earthSnapshot).camZ =
       earthSnapshot.posZ + max ((earth.radius : ℝ) * 4) 10) ∧
    ¬ ((iterateBody earth 1 earthSnapshot).posX =
         (cameraFocusTargets earth.radius earthSnapshot).lookX ∧
       (iterateBody earth 1 earthSnapshot).posZ =
         (cameraFocusTargets earth.radius earthSnapshot).lookZ) :=
  c10_capture_no_tracking earth earthSnapshot 1 earth.radius
    (by norm_num [earth]) (by norm_num [earth]) (le_refl 1)
    (by norm_num [earthSnapshot, earth])
    (by norm_num [earthSnapshot, earth])

end Helios
